import Mathlib

/-!
# cra-monitor: namespace-scoped listener bootstrap

A shallow embedding of `cmd/cra-monitor/main.go`.  The program is straight-line
code over external calls (`runtime`, `netns`, `net`, `net/http`, `log`).  Every
external call is answered by a `World` (one outcome per call site) and its
effect on the calling thread is recorded in an explicit `State`: the network
namespace of the thread, whether the goroutine is pinned to it, the stack of
deferred calls, the log of calls made so far and the exit status.
-/

namespace CraMonitor

/-- Identity of a network namespace (the kernel object). -/
abbrev Ns := Nat

/-- A `netns.NsHandle`: an open file descriptor together with the namespace
the descriptor refers to. -/
structure NsHandle where
  fd : Int
  ns : Ns
  deriving DecidableEq, Repr

/-- A `net.Listener`: the socket, the arguments it was created with and the
namespace the creating thread was in when the socket was opened. -/
structure Listener where
  sock : Nat
  network : String
  addr : String
  boundIn : Ns
  deriving DecidableEq, Repr

/-- The external calls made by `main`. -/
inductive Call where
  | lockOSThread
  | unlockOSThread
  | setupPrometheusRegistry
  | println (msg : String)
  | netnsGet
  | netnsGetFromPath (path : String)
  | netnsSet (h : NsHandle)
  | netListen (network : String) (addr : String)
  | close (h : NsHandle)
  | serve (l : Listener)
  | logFatal (msg : String)
  deriving DecidableEq, Repr

/-- One record of the call log: the source line of the call, the call, and the
thread's namespace and pinning at the moment the call is made. -/
structure Entry where
  line : Nat
  call : Call
  threadNs : Ns
  pinned : Bool
  deriving DecidableEq, Repr

/-- Outcomes of the external calls, one per call site of `main`.  A Go `error`
is represented by its message; `none` is the `nil` error. -/
structure World where
  /-- `setupPrometheusRegistry()`, line 63. -/
  setupPrometheusRegistry : Except String Unit
  /-- `netns.Get()`, line 86: the descriptor opened on the thread's namespace. -/
  netnsGet : Except String Int
  /-- `netns.GetFromPath(path)`, line 93. -/
  netnsGetFromPath : String → Except String NsHandle
  /-- `netns.Set(defaultNS)`, line 99. -/
  netnsSetDefault : Option String
  /-- `net.Listen(network, addr)`, line 104: the socket that was opened. -/
  netListen : String → String → Except String Nat
  /-- `netns.Set(currentNS)`, line 110. -/
  netnsSetCurrent : Option String
  /-- `server.Serve(listener)`, line 118: the value it returns with. -/
  serve : Option String

/-- State of the process as far as `main` is concerned. -/
structure State where
  /-- network namespace of the thread running `main` -/
  threadNs : Ns
  /-- the goroutine is wired to its thread (`LockOSThread` without `Unlock`) -/
  pinned : Bool
  /-- deferred calls of `main`, most recent first -/
  defers : List (Nat × Call)
  /-- calls made so far, oldest first -/
  trace : List Entry
  /-- `some code` once `os.Exit(code)` has been called -/
  exit : Option Nat
  deriving DecidableEq, Repr

/-- Process state when `main` is entered on a thread living in `ns0`. -/
def State.init (ns0 : Ns) : State :=
  { threadNs := ns0, pinned := false, defers := [], trace := [], exit := none }

/-- Record a call in the log. -/
def State.emit (st : State) (line : Nat) (c : Call) : State :=
  { st with trace := st.trace ++ [⟨line, c, st.threadNs, st.pinned⟩] }

/-- Go `defer`: push a call on the stack of deferred calls. -/
def State.defer (st : State) (line : Nat) (c : Call) : State :=
  { st with defers := (line, c) :: st.defers }

/-- The `%v` verb with one operand: the first `%v` of the format is replaced by
the operand, everything else is copied. -/
def substV : List Char → List Char → List Char
  | [], _ => []
  | [c], _ => [c]
  | c :: d :: rest, v =>
    if c = '%' ∧ d = 'v' then v ++ rest else c :: substV (d :: rest) v

/-- `fmt.Sprintf(format, err)` for the formats of this program. -/
def sprintf (format : String) (v : String) : String :=
  String.mk (substV format.data v.data)

/-- `log.Fatal` and `log.Fatalf`: print the message, then `os.Exit(1)`.  Deferred
calls are not run. -/
def State.logFatal (st : State) (line : Nat) (msg : String) : State :=
  { st.emit line (.logFatal msg) with exit := some 1 }

/-- `runtime.LockOSThread()`. -/
def State.lockOSThread (st : State) (line : Nat) : State :=
  { st.emit line .lockOSThread with pinned := true }

/-- A successful `netns.Set(h)`: the thread now lives in the namespace `h`
refers to.  A failed `netns.Set` leaves the state as it is. -/
def State.setNs (st : State) (h : NsHandle) : State :=
  { st with threadNs := h.ns }

/-- Run one deferred call. -/
def State.runDeferred (st : State) (d : Nat × Call) : State :=
  match d.2 with
  | .unlockOSThread => { st.emit d.1 .unlockOSThread with pinned := false }
  | c => st.emit d.1 c

/-- Return from `main`: the deferred calls run, most recent first. -/
def State.ret (st : State) : State :=
  { st.defers.foldl State.runDeferred st with defers := [] }

/-- Value of `addr` after `flag.Parse()`: the `-listen-address` flag when it is
given on the command line, else the default registered on line 54. -/
def listenAddress (flagValue : Option String) : String :=
  match flagValue with
  | some a => a
  | none => ":7082"

/-- Lines 85 to 121 of `main`: the statements after `server` is built. -/
def bootstrap (w : World) (serverAddr : String) (st : State) : State :=
  -- Save current (non-default) netns
  let st := st.emit 86 .netnsGet
  match w.netnsGet with
  | .error err => st.logFatal 88 (sprintf "failed to get current netns: %v" err)
  | .ok fd =>
    -- the handle `netns.Get` returns refers to the namespace of the calling thread
    let currentNS : NsHandle := ⟨fd, st.threadNs⟩
    let st := st.defer 90 (.close currentNS)
    -- Switch to default netns to bind the listener
    let st := st.emit 93 (.netnsGetFromPath "/proc/1/ns/net")
    match w.netnsGetFromPath "/proc/1/ns/net" with
    | .error err => st.logFatal 95 (sprintf "failed to get default netns: %v" err)
    | .ok defaultNS =>
      let st := st.defer 97 (.close defaultNS)
      let st := st.emit 99 (.netnsSet defaultNS)
      match w.netnsSetDefault with
      | some err => st.logFatal 100 (sprintf "failed to switch to default netns: %v" err)
      | none =>
        let st := st.setNs defaultNS
        -- Create listener in default netns
        let st := st.emit 104 (.netListen "tcp" serverAddr)
        match w.netListen "tcp" serverAddr with
        | .error err => st.logFatal 106 (sprintf "failed to listen: %v" err)
        | .ok sock =>
          let listener : Listener := ⟨sock, "tcp", serverAddr, st.threadNs⟩
          -- Switch back to original (non-default) netns
          let st := st.emit 110 (.netnsSet currentNS)
          match w.netnsSetCurrent with
          | some err =>
            st.logFatal 111 (sprintf "failed to switch back to original netns: %v" err)
          | none =>
            let st := st.setNs currentNS
            let st := st.emit 114 (.println ("created server, starting... Addr " ++ serverAddr
              ++ " ReadHeaderTimeout 20s ReadTimeout 1m0s"))
            -- Run server
            let st := st.emit 118 (.serve listener)
            match w.serve with
            | some err => st.logFatal 119 (sprintf "failed to start server: %v" err)
            | none => st.ret

/-- The function `main`: `flagValue` is the `-listen-address` flag of the
command line, `ns0` the namespace of the thread `main` starts on.  The logger
setup (lines 46 to 57) and the construction of the handler and of `server`
(lines 70 to 83) make no call the bootstrap depends on; of them only the value
of `addr`, copied to `server.Addr`, is kept. -/
def main (w : World) (flagValue : Option String) (ns0 : Ns) : State :=
  let addr := listenAddress flagValue
  let st := State.init ns0
  let st := st.lockOSThread 59
  let st := st.defer 60 .unlockOSThread
  -- Setup a new registry.
  let st := st.emit 63 .setupPrometheusRegistry
  match w.setupPrometheusRegistry with
  | .error err =>
    st.logFatal 65 (sprintf "prometheus registry setup error: %v" err)
  | .ok () =>
    let st := st.emit 67 (.println "configured Prometheus registry")
    let serverAddr := addr
    bootstrap w serverAddr st

/-! ## Observations on a finished run -/

/-- The five steps of the bootstrap, in program order. -/
inductive Step where
  | capture
  | resolve
  | forward
  | listen
  | restore
  deriving DecidableEq, Repr

/-- The steps in the order the program text lists them. -/
def Step.all : List Step := [.capture, .resolve, .forward, .listen, .restore]

/-- The step a log record belongs to: the call together with its call site. -/
def Entry.step (e : Entry) : Option Step :=
  match e.line, e.call with
  | 86, .netnsGet => some .capture
  | 93, .netnsGetFromPath _ => some .resolve
  | 99, .netnsSet _ => some .forward
  | 104, .netListen _ _ => some .listen
  | 110, .netnsSet _ => some .restore
  | _, _ => none

/-- Calls that read or change the thread's namespace, or depend on it. -/
def Call.namespaceSensitive : Call → Bool
  | .netnsGet => true
  | .netnsGetFromPath _ => true
  | .netnsSet _ => true
  | .netListen _ _ => true
  | _ => false

/-- The call is `server.Serve`. -/
def Call.isServe : Call → Bool
  | .serve _ => true
  | _ => false

/-- The call is `net.Listen`. -/
def Call.isListen : Call → Bool
  | .netListen _ _ => true
  | _ => false

/-- The call is `netns.Set`. -/
def Call.isSet : Call → Bool
  | .netnsSet _ => true
  | _ => false

/-- The call is `NsHandle.Close`. -/
def Call.isClose : Call → Bool
  | .close _ => true
  | _ => false

/-- The steps of the bootstrap that were executed, in order of execution. -/
def State.stepsRun (st : State) : List Step :=
  st.trace.filterMap Entry.step

/-- Every `server.Serve` call of the run: the listener passed and the thread's
namespace when the call is made. -/
def State.served (st : State) : List (Listener × Ns) :=
  st.trace.filterMap fun e =>
    match e.call with
    | .serve l => some (l, e.threadNs)
    | _ => none

/-- The fatal reports of the run: message printed and the thread's namespace
when it is printed. -/
def State.fatal (st : State) : List (String × Ns) :=
  st.trace.filterMap fun e =>
    match e.call with
    | .logFatal msg => some (msg, e.threadNs)
    | _ => none

/-- The handles on which `Close` was called, in order. -/
def State.closed (st : State) : List NsHandle :=
  st.trace.filterMap fun e =>
    match e.call with
    | .close h => some h
    | _ => none

/-- The log records made at a given source line. -/
def State.atLine (st : State) (line : Nat) : List Entry :=
  st.trace.filter fun e => e.line = line

/-- The log records that precede the first call satisfying `p`. -/
def State.before (st : State) (p : Call → Bool) : List Entry :=
  st.trace.takeWhile fun e => !p e.call

/-- The call is `runtime.UnlockOSThread`. -/
def Call.isUnlock : Call → Bool
  | .unlockOSThread => true
  | _ => false

/-- The log from the first call satisfying `p` on (that call included). -/
def State.since (st : State) (p : Call → Bool) : List Entry :=
  st.trace.dropWhile fun e => !p e.call

/-- The log records that follow the record of step `s`. -/
def State.afterStep (st : State) (s : Step) : List Entry :=
  (st.trace.dropWhile fun e => !(e.step == some s)).tail

/-- The error with which the world answers a step, if it makes the step fail. -/
def World.failure (w : World) (serverAddr : String) : Step → Option String
  | .capture =>
    match w.netnsGet with
    | .error err => some err
    | .ok _ => none
  | .resolve =>
    match w.netnsGetFromPath "/proc/1/ns/net" with
    | .error err => some err
    | .ok _ => none
  | .forward => w.netnsSetDefault
  | .listen =>
    match w.netListen "tcp" serverAddr with
    | .error err => some err
    | .ok _ => none
  | .restore => w.netnsSetCurrent

/-- The first step, in program order, that the world makes fail, with its error. -/
def World.firstFailure (w : World) (serverAddr : String) : Option (Step × String) :=
  Step.all.findSome? fun s => (w.failure serverAddr s).map fun err => (s, err)

/-- The steps up to and including the first failing one (all of them when no
step fails). -/
def World.stepsThrough (w : World) (serverAddr : String) : List Step :=
  match w.firstFailure serverAddr with
  | none => Step.all
  | some (.capture, _) => [.capture]
  | some (.resolve, _) => [.capture, .resolve]
  | some (.forward, _) => [.capture, .resolve, .forward]
  | some (.listen, _) => [.capture, .resolve, .forward, .listen]
  | some (.restore, _) => Step.all

/-- The report expected for a failure of the given step with the given error. -/
def Step.report : Step → String → String
  | .capture, err => "failed to get current netns: " ++ err
  | .resolve, err => "failed to get default netns: " ++ err
  | .forward, err => "failed to switch to default netns: " ++ err
  | .listen, err => "failed to listen: " ++ err
  | .restore, err => "failed to switch back to original netns: " ++ err

/-! ## Pieces of the log -/

/-- Log of `main` up to the point where `server` is built. -/
def preludeLog (ns0 : Ns) : List Entry :=
  [⟨59, .lockOSThread, ns0, false⟩, ⟨63, .setupPrometheusRegistry, ns0, true⟩,
    ⟨67, .println "configured Prometheus registry", ns0, true⟩]

/-- Log of the five steps when all of them succeed. -/
def stepsLog (flagValue : Option String) (ns0 : Ns) (fd : Int) (defaultNS : NsHandle) :
    List Entry :=
  [⟨86, .netnsGet, ns0, true⟩,
    ⟨93, .netnsGetFromPath "/proc/1/ns/net", ns0, true⟩,
    ⟨99, .netnsSet defaultNS, ns0, true⟩,
    ⟨104, .netListen "tcp" (listenAddress flagValue), defaultNS.ns, true⟩,
    ⟨110, .netnsSet ⟨fd, ns0⟩, defaultNS.ns, true⟩]

/-- Log of the two calls that follow a successful restore. -/
def serveLog (flagValue : Option String) (ns0 : Ns) (defaultNS : NsHandle) (sock : Nat) :
    List Entry :=
  [⟨114, .println ("created server, starting... Addr " ++ listenAddress flagValue
      ++ " ReadHeaderTimeout 20s ReadTimeout 1m0s"), ns0, true⟩,
    ⟨118, .serve ⟨sock, "tcp", listenAddress flagValue, defaultNS.ns⟩, ns0, true⟩]

/-! ## Sample worlds -/

/-- A world in which every call succeeds and `Serve` returns `nil`: descriptor 3
for the current namespace, descriptor 4 on namespace 1 for `/proc/1/ns/net`,
socket 5. -/
def worldOk : World :=
  { setupPrometheusRegistry := .ok ()
    netnsGet := .ok 3
    netnsGetFromPath := fun _ => .ok ⟨4, 1⟩
    netnsSetDefault := none
    netListen := fun _ _ => .ok 5
    netnsSetCurrent := none
    serve := none }

/-- As `worldOk`, but `/proc/1/ns/net` cannot be opened. -/
def worldResolveFails : World :=
  { worldOk with netnsGetFromPath := fun _ => .error "open /proc/1/ns/net: permission denied" }

/-- As `worldOk`, but the forward `setns` is refused. -/
def worldForwardFails : World :=
  { worldOk with netnsSetDefault := some "operation not permitted" }

/-- As `worldOk`, but the address is taken in the target namespace. -/
def worldBindFails : World :=
  { worldOk with netListen := fun _ _ => .error "listen tcp :7082: bind: address already in use" }

/-- As `worldOk`, but the `setns` back to the original namespace is refused. -/
def worldRestoreFails : World :=
  { worldOk with netnsSetCurrent := some "operation not permitted" }

/-! ## The eight paths through `main` -/

/-- Path 1: registry setup fails. -/
theorem main_registry_error (w : World) (flagValue : Option String) (ns0 : Ns) (err : String)
    (hreg : w.setupPrometheusRegistry = .error err) :
    main w flagValue ns0 =
      { threadNs := ns0, pinned := true, defers := [(60, .unlockOSThread)],
        trace := [⟨59, .lockOSThread, ns0, false⟩, ⟨63, .setupPrometheusRegistry, ns0, true⟩,
          ⟨65, .logFatal (sprintf "prometheus registry setup error: %v" err), ns0, true⟩],
        exit := some 1 } := by
  simp [main, hreg, State.logFatal, State.emit, State.defer, State.lockOSThread, State.init]

/-- Path 2: `netns.Get` fails. -/
theorem main_get_error (w : World) (flagValue : Option String) (ns0 : Ns) (err : String)
    (hreg : w.setupPrometheusRegistry = .ok ())
    (hget : w.netnsGet = .error err) :
    main w flagValue ns0 =
      { threadNs := ns0, pinned := true, defers := [(60, .unlockOSThread)],
        trace := preludeLog ns0 ++ [⟨86, .netnsGet, ns0, true⟩,
          ⟨88, .logFatal (sprintf "failed to get current netns: %v" err), ns0, true⟩],
        exit := some 1 } := by
  simp [main, bootstrap, preludeLog, hreg, hget, State.logFatal, State.emit, State.defer,
    State.lockOSThread, State.init]

/-- Path 3: `netns.GetFromPath` fails. -/
theorem main_resolve_error (w : World) (flagValue : Option String) (ns0 : Ns) (fd : Int)
    (err : String)
    (hreg : w.setupPrometheusRegistry = .ok ())
    (hget : w.netnsGet = .ok fd)
    (hres : w.netnsGetFromPath "/proc/1/ns/net" = .error err) :
    main w flagValue ns0 =
      { threadNs := ns0, pinned := true,
        defers := [(90, .close ⟨fd, ns0⟩), (60, .unlockOSThread)],
        trace := preludeLog ns0 ++ [⟨86, .netnsGet, ns0, true⟩,
          ⟨93, .netnsGetFromPath "/proc/1/ns/net", ns0, true⟩,
          ⟨95, .logFatal (sprintf "failed to get default netns: %v" err), ns0, true⟩],
        exit := some 1 } := by
  simp [main, bootstrap, preludeLog, hreg, hget, hres, State.logFatal, State.emit, State.defer,
    State.lockOSThread, State.init]

/-- Path 4: the forward `netns.Set` fails. -/
theorem main_forward_error (w : World) (flagValue : Option String) (ns0 : Ns) (fd : Int)
    (defaultNS : NsHandle) (err : String)
    (hreg : w.setupPrometheusRegistry = .ok ())
    (hget : w.netnsGet = .ok fd)
    (hres : w.netnsGetFromPath "/proc/1/ns/net" = .ok defaultNS)
    (hfwd : w.netnsSetDefault = some err) :
    main w flagValue ns0 =
      { threadNs := ns0, pinned := true,
        defers := [(97, .close defaultNS), (90, .close ⟨fd, ns0⟩), (60, .unlockOSThread)],
        trace := preludeLog ns0 ++ [⟨86, .netnsGet, ns0, true⟩,
          ⟨93, .netnsGetFromPath "/proc/1/ns/net", ns0, true⟩,
          ⟨99, .netnsSet defaultNS, ns0, true⟩,
          ⟨100, .logFatal (sprintf "failed to switch to default netns: %v" err), ns0, true⟩],
        exit := some 1 } := by
  simp [main, bootstrap, preludeLog, hreg, hget, hres, hfwd, State.logFatal, State.emit,
    State.defer, State.lockOSThread, State.init]

/-- Path 5: `net.Listen` fails. -/
theorem main_listen_error (w : World) (flagValue : Option String) (ns0 : Ns) (fd : Int)
    (defaultNS : NsHandle) (err : String)
    (hreg : w.setupPrometheusRegistry = .ok ())
    (hget : w.netnsGet = .ok fd)
    (hres : w.netnsGetFromPath "/proc/1/ns/net" = .ok defaultNS)
    (hfwd : w.netnsSetDefault = none)
    (hlis : w.netListen "tcp" (listenAddress flagValue) = .error err) :
    main w flagValue ns0 =
      { threadNs := defaultNS.ns, pinned := true,
        defers := [(97, .close defaultNS), (90, .close ⟨fd, ns0⟩), (60, .unlockOSThread)],
        trace := preludeLog ns0 ++ [⟨86, .netnsGet, ns0, true⟩,
          ⟨93, .netnsGetFromPath "/proc/1/ns/net", ns0, true⟩,
          ⟨99, .netnsSet defaultNS, ns0, true⟩,
          ⟨104, .netListen "tcp" (listenAddress flagValue), defaultNS.ns, true⟩,
          ⟨106, .logFatal (sprintf "failed to listen: %v" err), defaultNS.ns, true⟩],
        exit := some 1 } := by
  simp [main, bootstrap, preludeLog, hreg, hget, hres, hfwd, hlis, State.logFatal, State.emit,
    State.defer, State.lockOSThread, State.init, State.setNs]

/-- Path 6: the `netns.Set` back to the original namespace fails. -/
theorem main_restore_error (w : World) (flagValue : Option String) (ns0 : Ns) (fd : Int)
    (defaultNS : NsHandle) (sock : Nat) (err : String)
    (hreg : w.setupPrometheusRegistry = .ok ())
    (hget : w.netnsGet = .ok fd)
    (hres : w.netnsGetFromPath "/proc/1/ns/net" = .ok defaultNS)
    (hfwd : w.netnsSetDefault = none)
    (hlis : w.netListen "tcp" (listenAddress flagValue) = .ok sock)
    (hback : w.netnsSetCurrent = some err) :
    main w flagValue ns0 =
      { threadNs := defaultNS.ns, pinned := true,
        defers := [(97, .close defaultNS), (90, .close ⟨fd, ns0⟩), (60, .unlockOSThread)],
        trace := preludeLog ns0 ++ stepsLog flagValue ns0 fd defaultNS ++
          [⟨111, .logFatal (sprintf "failed to switch back to original netns: %v" err),
            defaultNS.ns, true⟩],
        exit := some 1 } := by
  simp [main, bootstrap, preludeLog, stepsLog, hreg, hget, hres, hfwd, hlis, hback,
    State.logFatal, State.emit, State.defer, State.lockOSThread, State.init, State.setNs]

/-- Path 7: `server.Serve` returns an error. -/
theorem main_serve_error (w : World) (flagValue : Option String) (ns0 : Ns) (fd : Int)
    (defaultNS : NsHandle) (sock : Nat) (err : String)
    (hreg : w.setupPrometheusRegistry = .ok ())
    (hget : w.netnsGet = .ok fd)
    (hres : w.netnsGetFromPath "/proc/1/ns/net" = .ok defaultNS)
    (hfwd : w.netnsSetDefault = none)
    (hlis : w.netListen "tcp" (listenAddress flagValue) = .ok sock)
    (hback : w.netnsSetCurrent = none)
    (hsrv : w.serve = some err) :
    main w flagValue ns0 =
      { threadNs := ns0, pinned := true,
        defers := [(97, .close defaultNS), (90, .close ⟨fd, ns0⟩), (60, .unlockOSThread)],
        trace := preludeLog ns0 ++ stepsLog flagValue ns0 fd defaultNS ++
          serveLog flagValue ns0 defaultNS sock ++
          [⟨119, .logFatal (sprintf "failed to start server: %v" err), ns0, true⟩],
        exit := some 1 } := by
  simp [main, bootstrap, preludeLog, stepsLog, serveLog, hreg, hget, hres, hfwd, hlis, hback,
    hsrv, State.logFatal, State.emit, State.defer, State.lockOSThread, State.init, State.setNs]

/-- Path 8: `server.Serve` returns `nil` and `main` returns. -/
theorem main_serve_nil (w : World) (flagValue : Option String) (ns0 : Ns) (fd : Int)
    (defaultNS : NsHandle) (sock : Nat)
    (hreg : w.setupPrometheusRegistry = .ok ())
    (hget : w.netnsGet = .ok fd)
    (hres : w.netnsGetFromPath "/proc/1/ns/net" = .ok defaultNS)
    (hfwd : w.netnsSetDefault = none)
    (hlis : w.netListen "tcp" (listenAddress flagValue) = .ok sock)
    (hback : w.netnsSetCurrent = none)
    (hsrv : w.serve = none) :
    main w flagValue ns0 =
      { threadNs := ns0, pinned := false, defers := [],
        trace := preludeLog ns0 ++ stepsLog flagValue ns0 fd defaultNS ++
          serveLog flagValue ns0 defaultNS sock ++
          [⟨97, .close defaultNS, ns0, true⟩, ⟨90, .close ⟨fd, ns0⟩, ns0, true⟩,
            ⟨60, .unlockOSThread, ns0, true⟩],
        exit := none } := by
  simp [main, bootstrap, preludeLog, stepsLog, serveLog, hreg, hget, hres, hfwd, hlis, hback,
    hsrv, State.emit, State.defer, State.lockOSThread, State.init, State.setNs, State.ret,
    State.runDeferred]

/-- Every world drives `main` along exactly one of the eight paths. -/
theorem main_cases (w : World) (addr : String) :
    (∃ err, w.setupPrometheusRegistry = .error err) ∨
    (w.setupPrometheusRegistry = .ok () ∧ ∃ err, w.netnsGet = .error err) ∨
    (w.setupPrometheusRegistry = .ok () ∧ ∃ fd err, w.netnsGet = .ok fd ∧
      w.netnsGetFromPath "/proc/1/ns/net" = .error err) ∨
    (w.setupPrometheusRegistry = .ok () ∧ ∃ fd defaultNS err, w.netnsGet = .ok fd ∧
      w.netnsGetFromPath "/proc/1/ns/net" = .ok defaultNS ∧ w.netnsSetDefault = some err) ∨
    (w.setupPrometheusRegistry = .ok () ∧ ∃ fd defaultNS err, w.netnsGet = .ok fd ∧
      w.netnsGetFromPath "/proc/1/ns/net" = .ok defaultNS ∧ w.netnsSetDefault = none ∧
      w.netListen "tcp" addr = .error err) ∨
    (w.setupPrometheusRegistry = .ok () ∧ ∃ fd defaultNS sock err, w.netnsGet = .ok fd ∧
      w.netnsGetFromPath "/proc/1/ns/net" = .ok defaultNS ∧ w.netnsSetDefault = none ∧
      w.netListen "tcp" addr = .ok sock ∧ w.netnsSetCurrent = some err) ∨
    (w.setupPrometheusRegistry = .ok () ∧ ∃ fd defaultNS sock err, w.netnsGet = .ok fd ∧
      w.netnsGetFromPath "/proc/1/ns/net" = .ok defaultNS ∧ w.netnsSetDefault = none ∧
      w.netListen "tcp" addr = .ok sock ∧ w.netnsSetCurrent = none ∧ w.serve = some err) ∨
    (w.setupPrometheusRegistry = .ok () ∧ ∃ fd defaultNS sock, w.netnsGet = .ok fd ∧
      w.netnsGetFromPath "/proc/1/ns/net" = .ok defaultNS ∧ w.netnsSetDefault = none ∧
      w.netListen "tcp" addr = .ok sock ∧ w.netnsSetCurrent = none ∧ w.serve = none) := by
  rcases hreg : w.setupPrometheusRegistry with err | ⟨⟩
  · exact Or.inl ⟨err, rfl⟩
  refine Or.inr ?_
  rcases hget : w.netnsGet with err | fd
  · exact Or.inl ⟨rfl, err, rfl⟩
  refine Or.inr ?_
  rcases hres : w.netnsGetFromPath "/proc/1/ns/net" with err | defaultNS
  · exact Or.inl ⟨rfl, fd, err, rfl, rfl⟩
  refine Or.inr ?_
  rcases hfwd : w.netnsSetDefault with _ | err
  swap
  · exact Or.inl ⟨rfl, fd, defaultNS, err, rfl, rfl, rfl⟩
  refine Or.inr ?_
  rcases hlis : w.netListen "tcp" addr with err | sock
  · exact Or.inl ⟨rfl, fd, defaultNS, err, rfl, rfl, rfl, rfl⟩
  refine Or.inr ?_
  rcases hback : w.netnsSetCurrent with _ | err
  swap
  · exact Or.inl ⟨rfl, fd, defaultNS, sock, err, rfl, rfl, rfl, rfl, rfl⟩
  refine Or.inr ?_
  rcases hsrv : w.serve with _ | err
  · exact Or.inr ⟨rfl, fd, defaultNS, sock, rfl, rfl, rfl, rfl, rfl, rfl⟩
  · exact Or.inl ⟨rfl, fd, defaultNS, sock, err, rfl, rfl, rfl, rfl, rfl, rfl⟩

/-- A format that ends in its only `%v` renders as the text before the verb
followed by the operand. -/
theorem sprintf_reports (err : String) :
    sprintf "failed to get current netns: %v" err = Step.report .capture err ∧
    sprintf "failed to get default netns: %v" err = Step.report .resolve err ∧
    sprintf "failed to switch to default netns: %v" err = Step.report .forward err ∧
    sprintf "failed to listen: %v" err = Step.report .listen err ∧
    sprintf "failed to switch back to original netns: %v" err = Step.report .restore err := by
  refine ⟨?_, ?_, ?_, ?_, ?_⟩ <;> apply String.ext <;> simp [sprintf, substV, Step.report]

/-- Reports of different steps differ, whatever the errors are. -/
theorem Step.report_injective (s1 s2 : Step) (e1 e2 : String)
    (h : s1.report e1 = s2.report e2) : s1 = s2 := by
  have hd := congrArg String.data h
  cases s1 <;> cases s2 <;> first | rfl | (simp [Step.report] at hd)

/-- With the registry set up, the steps executed are those up to and including
the first failing one, and the failure of a step is reported, as the only fatal
report, by a message made of that step's text and error. -/
theorem main_steps_and_report (w : World) (flagValue : Option String) (ns0 : Ns)
    (hreg : w.setupPrometheusRegistry = .ok ()) :
    (main w flagValue ns0).stepsRun = w.stepsThrough (listenAddress flagValue) ∧
    ∀ s err, w.firstFailure (listenAddress flagValue) = some (s, err) →
      (main w flagValue ns0).fatal.map Prod.fst = [s.report err] ∧
      (main w flagValue ns0).served = [] ∧
      (main w flagValue ns0).exit = some 1 := by
  rcases main_cases w (listenAddress flagValue) with ⟨e, h⟩ | ⟨_, e, hget⟩ |
    ⟨_, fd, e, hget, hres⟩ | ⟨_, fd, d, e, hget, hres, hfwd⟩ |
    ⟨_, fd, d, e, hget, hres, hfwd, hlis⟩ | ⟨_, fd, d, sock, e, hget, hres, hfwd, hlis, hback⟩ |
    ⟨_, fd, d, sock, e, hget, hres, hfwd, hlis, hback, hsrv⟩ |
    ⟨_, fd, d, sock, hget, hres, hfwd, hlis, hback, hsrv⟩
  · rw [hreg] at h
    cases h
  · rw [main_get_error w flagValue ns0 e hreg hget]
    simp [State.stepsRun, State.fatal, State.served, World.stepsThrough, World.firstFailure,
      World.failure, Step.all, preludeLog, Entry.step, hget, sprintf_reports]
  · rw [main_resolve_error w flagValue ns0 fd e hreg hget hres]
    simp [State.stepsRun, State.fatal, State.served, World.stepsThrough, World.firstFailure,
      World.failure, Step.all, preludeLog, Entry.step, hget, hres, sprintf_reports]
  · rw [main_forward_error w flagValue ns0 fd d e hreg hget hres hfwd]
    simp [State.stepsRun, State.fatal, State.served, World.stepsThrough, World.firstFailure,
      World.failure, Step.all, preludeLog, Entry.step, hget, hres, hfwd, sprintf_reports]
  · rw [main_listen_error w flagValue ns0 fd d e hreg hget hres hfwd hlis]
    simp [State.stepsRun, State.fatal, State.served, World.stepsThrough, World.firstFailure,
      World.failure, Step.all, preludeLog, Entry.step, hget, hres, hfwd, hlis, sprintf_reports]
  · rw [main_restore_error w flagValue ns0 fd d sock e hreg hget hres hfwd hlis hback]
    simp [State.stepsRun, State.fatal, State.served, World.stepsThrough, World.firstFailure,
      World.failure, Step.all, preludeLog, stepsLog, Entry.step, hget, hres, hfwd, hlis, hback,
      sprintf_reports]
  · rw [main_serve_error w flagValue ns0 fd d sock e hreg hget hres hfwd hlis hback hsrv]
    simp [State.stepsRun, State.fatal, State.served, World.stepsThrough, World.firstFailure,
      World.failure, Step.all, preludeLog, stepsLog, serveLog, Entry.step, hget, hres, hfwd,
      hlis, hback]
  · rw [main_serve_nil w flagValue ns0 fd d sock hreg hget hres hfwd hlis hback hsrv]
    simp [State.stepsRun, State.fatal, State.served, World.stepsThrough, World.firstFailure,
      World.failure, Step.all, preludeLog, stepsLog, serveLog, Entry.step, hget, hres, hfwd,
      hlis, hback]

/-! ## The claims -/

/-- C1 (restoration invariant): when registry setup and the five operations
`netns.Get`, `netns.GetFromPath`, `netns.Set(defaultNS)`, `net.Listen`,
`netns.Set(currentNS)` all succeed, `server.Serve` is reached exactly once, with
the listener `net.Listen` produced, and the thread's namespace at that call is
the namespace the thread had when `netns.Get` was called, for every initial
namespace, target namespace and address. -/
theorem main_restores_namespace (w : World) (flagValue : Option String) (ns0 : Ns) (fd : Int)
    (defaultNS : NsHandle) (sock : Nat)
    (hreg : w.setupPrometheusRegistry = .ok ())
    (hget : w.netnsGet = .ok fd)
    (hres : w.netnsGetFromPath "/proc/1/ns/net" = .ok defaultNS)
    (hfwd : w.netnsSetDefault = none)
    (hlis : w.netListen "tcp" (listenAddress flagValue) = .ok sock)
    (hback : w.netnsSetCurrent = none) :
    (main w flagValue ns0).atLine 86 = [⟨86, .netnsGet, ns0, true⟩] ∧
    (main w flagValue ns0).served =
      [(⟨sock, "tcp", listenAddress flagValue, defaultNS.ns⟩, ns0)] ∧
    (main w flagValue ns0).threadNs = ns0 := by
  rcases hsrv : w.serve with _ | err
  · rw [main_serve_nil w flagValue ns0 fd defaultNS sock hreg hget hres hfwd hlis hback hsrv]
    simp [State.atLine, State.served, preludeLog, stepsLog, serveLog]
  · rw [main_serve_error w flagValue ns0 fd defaultNS sock err hreg hget hres hfwd hlis hback
      hsrv]
    simp [State.atLine, State.served, preludeLog, stepsLog, serveLog]

/-- Instance of C1: a thread in namespace 7 binds `:7082` in namespace 1 and
serves from namespace 7. -/
theorem main_restores_namespace_witness :
    (main worldOk none 7).atLine 86 = [⟨86, .netnsGet, 7, true⟩] ∧
    (main worldOk none 7).served = [(⟨5, "tcp", ":7082", 1⟩, 7)] ∧
    (main worldOk none 7).threadNs = 7 :=
  main_restores_namespace worldOk none 7 3 ⟨4, 1⟩ 5 rfl rfl rfl rfl rfl rfl

/-- C2 as stated fails: with the address taken in the target namespace 1 and a
thread that started in namespace 7, the run stops at the `net.Listen` step, no
call is made on line 110, and the error is reported while the thread is in
namespace 1, although a switch back would have succeeded. -/
theorem bind_failure_no_rollback :
    worldBindFails.setupPrometheusRegistry = .ok () ∧
    worldBindFails.netnsGet = .ok 3 ∧
    worldBindFails.netnsGetFromPath "/proc/1/ns/net" = .ok ⟨4, 1⟩ ∧
    worldBindFails.netnsSetDefault = none ∧
    worldBindFails.netListen "tcp" ":7082" =
      .error "listen tcp :7082: bind: address already in use" ∧
    worldBindFails.netnsSetCurrent = none ∧
    (main worldBindFails none 7).stepsRun = [.capture, .resolve, .forward, .listen] ∧
    (main worldBindFails none 7).atLine 110 = [] ∧
    (main worldBindFails none 7).fatal =
      [("failed to listen: listen tcp :7082: bind: address already in use", 1)] ∧
    (main worldBindFails none 7).atLine 86 = [⟨86, .netnsGet, 7, true⟩] := by
  refine ⟨rfl, rfl, rfl, rfl, rfl, rfl, ?_⟩
  rw [main_listen_error worldBindFails none 7 3 ⟨4, 1⟩
    "listen tcp :7082: bind: address already in use" rfl rfl rfl rfl rfl]
  simp [State.stepsRun, State.atLine, State.fatal, preludeLog, Entry.step,
    (sprintf_reports _).2.2.2.1, Step.report]

/-- C2 amended (fail-fast on bind failure): when `netns.Get`,
`netns.GetFromPath` and the forward `netns.Set(defaultNS)` succeed and
`net.Listen` fails, the steps executed are exactly capture, resolve, forward and
listen, no call is made on line 110 (the switch back is not attempted), the one
fatal report is "failed to listen: " followed by the listen error, it is made
while the thread is in the target namespace, and the process exits with
status 1. -/
theorem bind_failure_is_fatal_in_target (w : World) (flagValue : Option String) (ns0 : Ns)
    (fd : Int) (defaultNS : NsHandle) (err : String)
    (hreg : w.setupPrometheusRegistry = .ok ())
    (hget : w.netnsGet = .ok fd)
    (hres : w.netnsGetFromPath "/proc/1/ns/net" = .ok defaultNS)
    (hfwd : w.netnsSetDefault = none)
    (hlis : w.netListen "tcp" (listenAddress flagValue) = .error err) :
    (main w flagValue ns0).stepsRun = [.capture, .resolve, .forward, .listen] ∧
    (main w flagValue ns0).atLine 110 = [] ∧
    (main w flagValue ns0).fatal = [("failed to listen: " ++ err, defaultNS.ns)] ∧
    (main w flagValue ns0).threadNs = defaultNS.ns ∧
    (main w flagValue ns0).exit = some 1 := by
  rw [main_listen_error w flagValue ns0 fd defaultNS err hreg hget hres hfwd hlis]
  simp [State.stepsRun, State.atLine, State.fatal, preludeLog, Entry.step,
    (sprintf_reports _).2.2.2.1, Step.report]

/-- Instance of the amended C2 on `worldBindFails`. -/
theorem bind_failure_is_fatal_in_target_witness :
    (main worldBindFails none 7).stepsRun = [.capture, .resolve, .forward, .listen] ∧
    (main worldBindFails none 7).atLine 110 = [] ∧
    (main worldBindFails none 7).fatal =
      [("failed to listen: " ++ "listen tcp :7082: bind: address already in use", 1)] ∧
    (main worldBindFails none 7).threadNs = 1 ∧
    (main worldBindFails none 7).exit = some 1 :=
  bind_failure_is_fatal_in_target worldBindFails none 7 3 ⟨4, 1⟩
    "listen tcp :7082: bind: address already in use" rfl rfl rfl rfl rfl

/-- C3 fails on the code: when `netns.GetFromPath` fails the run ends in
`os.Exit(1)` with the deferred `currentNS.Close()` still pending and no `Close`
call made; when the forward `netns.Set` fails it ends the same way with both
deferred `Close` calls pending.  On the path where `Serve` returns `nil` both
handles are closed once by the deferred calls. -/
theorem fatal_exit_skips_close :
    (main worldResolveFails none 7).exit = some 1 ∧
    (main worldResolveFails none 7).closed = [] ∧
    (main worldResolveFails none 7).defers = [(90, .close ⟨3, 7⟩), (60, .unlockOSThread)] ∧
    (main worldForwardFails none 7).exit = some 1 ∧
    (main worldForwardFails none 7).closed = [] ∧
    (main worldForwardFails none 7).defers =
      [(97, .close ⟨4, 1⟩), (90, .close ⟨3, 7⟩), (60, .unlockOSThread)] ∧
    (main worldOk none 7).closed = [⟨4, 1⟩, ⟨3, 7⟩] := by
  rw [main_resolve_error worldResolveFails none 7 3 "open /proc/1/ns/net: permission denied"
      rfl rfl rfl,
    main_forward_error worldForwardFails none 7 3 ⟨4, 1⟩ "operation not permitted"
      rfl rfl rfl rfl,
    main_serve_nil worldOk none 7 3 ⟨4, 1⟩ 5 rfl rfl rfl rfl rfl rfl rfl]
  simp [State.closed, preludeLog, stepsLog, serveLog]

/-- C4 (no-op on early failure): when `netns.Get` succeeds and
`netns.GetFromPath("/proc/1/ns/net")` fails, the log holds no `netns.Set` call,
no `net.Listen` call and no `Serve` call, every call of the run is made in the
initial namespace, the thread ends in the initial namespace, and the one fatal
report is "failed to get default netns: " followed by the resolution error. -/
theorem resolve_failure_is_noop (w : World) (flagValue : Option String) (ns0 : Ns) (fd : Int)
    (err : String)
    (hreg : w.setupPrometheusRegistry = .ok ())
    (hget : w.netnsGet = .ok fd)
    (hres : w.netnsGetFromPath "/proc/1/ns/net" = .error err) :
    (main w flagValue ns0).trace.filter (fun e => e.call.isSet || e.call.isListen) = [] ∧
    (main w flagValue ns0).served = [] ∧
    (main w flagValue ns0).trace.all (fun e => decide (e.threadNs = ns0)) = true ∧
    (main w flagValue ns0).threadNs = ns0 ∧
    (main w flagValue ns0).fatal = [("failed to get default netns: " ++ err, ns0)] ∧
    (main w flagValue ns0).exit = some 1 := by
  rw [main_resolve_error w flagValue ns0 fd err hreg hget hres]
  simp [State.served, State.fatal, preludeLog, Call.isSet, Call.isListen,
    (sprintf_reports _).2.1, Step.report]

/-- Instance of C4 on `worldResolveFails`. -/
theorem resolve_failure_is_noop_witness :
    (main worldResolveFails none 7).trace.filter
      (fun e => e.call.isSet || e.call.isListen) = [] ∧
    (main worldResolveFails none 7).served = [] ∧
    (main worldResolveFails none 7).trace.all (fun e => decide (e.threadNs = 7)) = true ∧
    (main worldResolveFails none 7).threadNs = 7 ∧
    (main worldResolveFails none 7).fatal =
      [("failed to get default netns: " ++ "open /proc/1/ns/net: permission denied", 7)] ∧
    (main worldResolveFails none 7).exit = some 1 :=
  resolve_failure_is_noop worldResolveFails none 7 3 "open /proc/1/ns/net: permission denied"
    rfl rfl rfl

/-- C5 (fatal-escalation distinguishability): two runs whose first failing
steps differ print different fatal messages, whatever the errors of the two
steps are; in particular a failed restore switch after a successful
`net.Listen` is reported differently from a failed `net.Listen` and from a
failed forward switch. -/
theorem fatal_report_distinguishes_step (w1 w2 : World) (f1 f2 : Option String) (n1 n2 : Ns)
    (s1 s2 : Step) (e1 e2 : String)
    (hreg1 : w1.setupPrometheusRegistry = .ok ())
    (hreg2 : w2.setupPrometheusRegistry = .ok ())
    (h1 : w1.firstFailure (listenAddress f1) = some (s1, e1))
    (h2 : w2.firstFailure (listenAddress f2) = some (s2, e2))
    (hne : s1 ≠ s2) :
    (main w1 f1 n1).fatal.map Prod.fst = [s1.report e1] ∧
    (main w2 f2 n2).fatal.map Prod.fst = [s2.report e2] ∧
    (main w1 f1 n1).fatal.map Prod.fst ≠ (main w2 f2 n2).fatal.map Prod.fst := by
  have r1 := ((main_steps_and_report w1 f1 n1 hreg1).2 s1 e1 h1).1
  have r2 := ((main_steps_and_report w2 f2 n2 hreg2).2 s2 e2 h2).1
  refine ⟨r1, r2, ?_⟩
  rw [r1, r2]
  intro h
  exact hne (Step.report_injective s1 s2 e1 e2 (List.head_eq_of_cons_eq h))

/-- Instance of C5: a failed restore switch against a failed `net.Listen`. -/
theorem fatal_report_distinguishes_step_witness :
    (main worldRestoreFails none 7).fatal.map Prod.fst =
      [Step.report .restore "operation not permitted"] ∧
    (main worldBindFails none 7).fatal.map Prod.fst =
      [Step.report .listen "listen tcp :7082: bind: address already in use"] ∧
    (main worldRestoreFails none 7).fatal.map Prod.fst ≠
      (main worldBindFails none 7).fatal.map Prod.fst :=
  fatal_report_distinguishes_step worldRestoreFails worldBindFails none none 7 7
    .restore .listen "operation not permitted" "listen tcp :7082: bind: address already in use"
    rfl rfl rfl rfl (by decide)

/-- C8 (sequential gating and first-error reporting): with the registry set up,
the steps executed are, in program order, exactly those up to and including the
first failing one, so a step starts only if every earlier step succeeded and no
step follows a failed one; the only fatal report of a run with a failing step
is that of the first failing step, and such a run never serves.  If `netns.Get`
fails only the capture step runs, and if the forward `netns.Set` fails
`net.Listen` is not called. -/
theorem steps_gated_first_error_reported (w : World) (flagValue : Option String) (ns0 : Ns)
    (hreg : w.setupPrometheusRegistry = .ok ()) :
    (main w flagValue ns0).stepsRun = w.stepsThrough (listenAddress flagValue) ∧
    (main w flagValue ns0).stepsRun <+: Step.all ∧
    (∀ s err, w.firstFailure (listenAddress flagValue) = some (s, err) →
      (main w flagValue ns0).fatal.map Prod.fst = [s.report err] ∧
      (main w flagValue ns0).stepsRun.getLast? = some s ∧
      (main w flagValue ns0).served = [] ∧
      (main w flagValue ns0).exit = some 1) ∧
    (∀ err, w.netnsGet = .error err → (main w flagValue ns0).stepsRun = [.capture]) ∧
    (∀ err, w.netnsSetDefault = some err →
      (main w flagValue ns0).trace.filter (fun e => e.call.isListen) = []) := by
  have hsr := main_steps_and_report w flagValue ns0 hreg
  refine ⟨hsr.1, ?_, ?_, ?_, ?_⟩
  · rw [hsr.1]
    unfold World.stepsThrough
    split <;> decide
  · intro s err h
    obtain ⟨a, b, c⟩ := hsr.2 s err h
    refine ⟨a, ?_, b, c⟩
    rw [hsr.1]
    unfold World.stepsThrough
    rw [h]
    cases s <;> rfl
  · intro err hget
    rw [main_get_error w flagValue ns0 err hreg hget]
    simp [State.stepsRun, preludeLog, Entry.step]
  · intro err hfwd
    rcases main_cases w (listenAddress flagValue) with ⟨e, h⟩ | ⟨_, e, hget⟩ |
      ⟨_, fd, e, hget, hres⟩ | ⟨_, fd, d, e, hget, hres, hfwd2⟩ |
      ⟨_, fd, d, e, hget, hres, hfwd2, hlis⟩ | ⟨_, _, _, _, _, _, _, hfwd2, _⟩ |
      ⟨_, _, _, _, _, _, _, hfwd2, _⟩ | ⟨_, _, _, _, _, _, hfwd2, _⟩
    · rw [hreg] at h
      cases h
    · rw [main_get_error w flagValue ns0 e hreg hget]
      simp [preludeLog, Call.isListen]
    · rw [main_resolve_error w flagValue ns0 fd e hreg hget hres]
      simp [preludeLog, Call.isListen]
    · rw [main_forward_error w flagValue ns0 fd d e hreg hget hres hfwd2]
      simp [preludeLog, Call.isListen]
    · rw [hfwd] at hfwd2
      cases hfwd2
    · rw [hfwd] at hfwd2
      cases hfwd2
    · rw [hfwd] at hfwd2
      cases hfwd2
    · rw [hfwd] at hfwd2
      cases hfwd2

/-- Instance of C8: the forward switch is refused; capture, resolve and forward
run, `net.Listen` does not, and the forward switch's error is reported. -/
theorem steps_gated_first_error_reported_witness :
    (main worldForwardFails none 7).stepsRun = [.capture, .resolve, .forward] ∧
    (main worldForwardFails none 7).fatal.map Prod.fst =
      ["failed to switch to default netns: " ++ "operation not permitted"] ∧
    (main worldForwardFails none 7).trace.filter (fun e => e.call.isListen) = [] :=
  have h := steps_gated_first_error_reported worldForwardFails none 7 rfl
  ⟨h.1, (h.2.2.1 .forward "operation not permitted" rfl).1,
    h.2.2.2.2 "operation not permitted" rfl⟩

/-- C7 (thread pinning spans the protocol): in every run the first call is
`runtime.LockOSThread`, every call of `netns.Get`, `netns.GetFromPath`,
`netns.Set` and `net.Listen` is made while the thread is pinned, and no such
call is made from the first `runtime.UnlockOSThread` on. -/
theorem namespace_calls_are_pinned (w : World) (flagValue : Option String) (ns0 : Ns) :
    (main w flagValue ns0).trace.head? = some ⟨59, .lockOSThread, ns0, false⟩ ∧
    (∀ e ∈ (main w flagValue ns0).trace, e.call.namespaceSensitive = true → e.pinned = true) ∧
    ((main w flagValue ns0).since Call.isUnlock).filter
      (fun e => e.call.namespaceSensitive) = [] := by
  rcases main_cases w (listenAddress flagValue) with ⟨e, hreg⟩ | ⟨hreg, e, hget⟩ |
    ⟨hreg, fd, e, hget, hres⟩ | ⟨hreg, fd, d, e, hget, hres, hfwd⟩ |
    ⟨hreg, fd, d, e, hget, hres, hfwd, hlis⟩ |
    ⟨hreg, fd, d, sock, e, hget, hres, hfwd, hlis, hback⟩ |
    ⟨hreg, fd, d, sock, e, hget, hres, hfwd, hlis, hback, hsrv⟩ |
    ⟨hreg, fd, d, sock, hget, hres, hfwd, hlis, hback, hsrv⟩
  · rw [main_registry_error w flagValue ns0 e hreg]
    simp [preludeLog, stepsLog, serveLog, State.since, Call.namespaceSensitive, Call.isUnlock, hreg]
  · rw [main_get_error w flagValue ns0 e hreg hget]
    simp [preludeLog, stepsLog, serveLog, State.since, Call.namespaceSensitive, Call.isUnlock, hreg, hget]
  · rw [main_resolve_error w flagValue ns0 fd e hreg hget hres]
    simp [preludeLog, stepsLog, serveLog, State.since, Call.namespaceSensitive, Call.isUnlock, hreg, hget, hres]
  · rw [main_forward_error w flagValue ns0 fd d e hreg hget hres hfwd]
    simp [preludeLog, stepsLog, serveLog, State.since, Call.namespaceSensitive, Call.isUnlock, hreg, hget, hres, hfwd]
  · rw [main_listen_error w flagValue ns0 fd d e hreg hget hres hfwd hlis]
    simp [preludeLog, stepsLog, serveLog, State.since, Call.namespaceSensitive, Call.isUnlock, hreg, hget, hres, hfwd, hlis]
  · rw [main_restore_error w flagValue ns0 fd d sock e hreg hget hres hfwd hlis hback]
    simp [preludeLog, stepsLog, serveLog, State.since, Call.namespaceSensitive, Call.isUnlock, hreg, hget, hres, hfwd, hlis, hback]
  · rw [main_serve_error w flagValue ns0 fd d sock e hreg hget hres hfwd hlis hback hsrv]
    simp [preludeLog, stepsLog, serveLog, State.since, Call.namespaceSensitive, Call.isUnlock, hreg, hget, hres, hfwd, hlis, hback, hsrv]
  · rw [main_serve_nil w flagValue ns0 fd d sock hreg hget hres hfwd hlis hback hsrv]
    simp [preludeLog, stepsLog, serveLog, State.since, Call.namespaceSensitive, Call.isUnlock, hreg, hget, hres, hfwd, hlis, hback, hsrv]

/-- Instance of C7: the `net.Listen` call of the all-success run is made on a
pinned thread. -/
theorem namespace_calls_are_pinned_witness :
    (⟨104, .netListen "tcp" ":7082", 1, true⟩ : Entry) ∈ (main worldOk none 7).trace ∧
    (Call.netListen "tcp" ":7082").namespaceSensitive = true ∧
    (⟨104, .netListen "tcp" ":7082", 1, true⟩ : Entry).pinned = true :=
  ⟨by decide, rfl,
    (namespace_calls_are_pinned worldOk none 7).2.1 ⟨104, .netListen "tcp" ":7082", 1, true⟩
      (by decide) rfl⟩

/-- C6 (the listener is bound in the target namespace): in every run in which
`net.Listen` is called, `/proc/1/ns/net` was resolved to a handle `defaultNS`
and the forward switch succeeded; the only `netns.Set` call that precedes the
`net.Listen` call is the forward `netns.Set(defaultNS)`, so none to `currentNS`
does; `net.Listen` is called once, with the thread in the namespace of
`defaultNS`; and every listener passed to `server.Serve` was bound in that
namespace. -/
theorem listen_in_target_namespace (w : World) (flagValue : Option String) (ns0 : Ns)
    (hcalled : (main w flagValue ns0).trace.filter (fun e => e.call.isListen) ≠ []) :
    ∃ defaultNS, w.netnsGetFromPath "/proc/1/ns/net" = .ok defaultNS ∧
      w.netnsSetDefault = none ∧
      ((main w flagValue ns0).before Call.isListen).filter (fun e => e.call.isSet) =
        [⟨99, .netnsSet defaultNS, ns0, true⟩] ∧
      (main w flagValue ns0).trace.filter (fun e => e.call.isListen) =
        [⟨104, .netListen "tcp" (listenAddress flagValue), defaultNS.ns, true⟩] ∧
      ∀ p ∈ (main w flagValue ns0).served, p.1.boundIn = defaultNS.ns := by
  revert hcalled
  rcases main_cases w (listenAddress flagValue) with ⟨e, hreg⟩ | ⟨hreg, e, hget⟩ |
    ⟨hreg, fd, e, hget, hres⟩ | ⟨hreg, fd, d, e, hget, hres, hfwd⟩ |
    ⟨hreg, fd, d, e, hget, hres, hfwd, hlis⟩ |
    ⟨hreg, fd, d, sock, e, hget, hres, hfwd, hlis, hback⟩ |
    ⟨hreg, fd, d, sock, e, hget, hres, hfwd, hlis, hback, hsrv⟩ |
    ⟨hreg, fd, d, sock, hget, hres, hfwd, hlis, hback, hsrv⟩
  · rw [main_registry_error w flagValue ns0 e hreg]
    simp [preludeLog, stepsLog, serveLog, State.before, State.served, Call.isListen, Call.isSet, hreg]
  · rw [main_get_error w flagValue ns0 e hreg hget]
    simp [preludeLog, stepsLog, serveLog, State.before, State.served, Call.isListen, Call.isSet, hreg, hget]
  · rw [main_resolve_error w flagValue ns0 fd e hreg hget hres]
    simp [preludeLog, stepsLog, serveLog, State.before, State.served, Call.isListen, Call.isSet, hreg, hget, hres]
  · rw [main_forward_error w flagValue ns0 fd d e hreg hget hres hfwd]
    simp [preludeLog, stepsLog, serveLog, State.before, State.served, Call.isListen, Call.isSet, hreg, hget, hres, hfwd]
  · rw [main_listen_error w flagValue ns0 fd d e hreg hget hres hfwd hlis]
    simp [preludeLog, stepsLog, serveLog, State.before, State.served, Call.isListen, Call.isSet, hreg, hget, hres, hfwd, hlis]
  · rw [main_restore_error w flagValue ns0 fd d sock e hreg hget hres hfwd hlis hback]
    simp [preludeLog, stepsLog, serveLog, State.before, State.served, Call.isListen, Call.isSet, hreg, hget, hres, hfwd, hlis, hback]
  · rw [main_serve_error w flagValue ns0 fd d sock e hreg hget hres hfwd hlis hback hsrv]
    simp [preludeLog, stepsLog, serveLog, State.before, State.served, Call.isListen, Call.isSet, hreg, hget, hres, hfwd, hlis, hback, hsrv]
  · rw [main_serve_nil w flagValue ns0 fd d sock hreg hget hres hfwd hlis hback hsrv]
    simp [preludeLog, stepsLog, serveLog, State.before, State.served, Call.isListen, Call.isSet, hreg, hget, hres, hfwd, hlis, hback, hsrv]

/-- Instance of C6: in the run where the restore switch is refused, `net.Listen`
was called in namespace 1, the namespace of `/proc/1/ns/net`. -/
theorem listen_in_target_namespace_witness :
    (main worldRestoreFails none 7).trace.filter (fun e => e.call.isListen) ≠ [] ∧
    ∃ defaultNS, worldRestoreFails.netnsGetFromPath "/proc/1/ns/net" = .ok defaultNS ∧
      worldRestoreFails.netnsSetDefault = none ∧
      ((main worldRestoreFails none 7).before Call.isListen).filter (fun e => e.call.isSet) =
        [⟨99, .netnsSet defaultNS, 7, true⟩] ∧
      (main worldRestoreFails none 7).trace.filter (fun e => e.call.isListen) =
        [⟨104, .netListen "tcp" ":7082", defaultNS.ns, true⟩] ∧
      ∀ p ∈ (main worldRestoreFails none 7).served, p.1.boundIn = defaultNS.ns :=
  ⟨by decide, listen_in_target_namespace worldRestoreFails none 7 (by decide)⟩

/-- C9 (no internal retry): in every run each of the five steps is executed at
most once and every `netns` or `net` call of the run is one of these steps; when
an executed step fails, the only call that follows it is the fatal report of
that step, and the process exits with status 1. -/
theorem no_retry (w : World) (flagValue : Option String) (ns0 : Ns) :
    (∀ s, (main w flagValue ns0).stepsRun.count s ≤ 1) ∧
    ((main w flagValue ns0).trace.filter (fun e => e.call.namespaceSensitive)).length =
      (main w flagValue ns0).stepsRun.length ∧
    (∀ s err, s ∈ (main w flagValue ns0).stepsRun →
      w.failure (listenAddress flagValue) s = some err →
      ((main w flagValue ns0).afterStep s).map Entry.call = [.logFatal (s.report err)] ∧
      (main w flagValue ns0).exit = some 1) := by
  rcases main_cases w (listenAddress flagValue) with ⟨e, hreg⟩ | ⟨hreg, e, hget⟩ |
    ⟨hreg, fd, e, hget, hres⟩ | ⟨hreg, fd, d, e, hget, hres, hfwd⟩ |
    ⟨hreg, fd, d, e, hget, hres, hfwd, hlis⟩ |
    ⟨hreg, fd, d, sock, e, hget, hres, hfwd, hlis, hback⟩ |
    ⟨hreg, fd, d, sock, e, hget, hres, hfwd, hlis, hback, hsrv⟩ |
    ⟨hreg, fd, d, sock, hget, hres, hfwd, hlis, hback, hsrv⟩
  · rw [main_registry_error w flagValue ns0 e hreg]
    simp [preludeLog, stepsLog, serveLog, State.stepsRun, State.afterStep, Entry.step, Call.namespaceSensitive, World.failure, sprintf_reports, hreg]
  · rw [main_get_error w flagValue ns0 e hreg hget]
    simp [preludeLog, stepsLog, serveLog, State.stepsRun, State.afterStep, Entry.step, Call.namespaceSensitive, World.failure, sprintf_reports, hreg, hget]
    refine ⟨fun s => by cases s <;> decide, fun s err hs hf => ?_⟩
    cases s <;> simp_all [List.dropWhile]
  · rw [main_resolve_error w flagValue ns0 fd e hreg hget hres]
    simp [preludeLog, stepsLog, serveLog, State.stepsRun, State.afterStep, Entry.step, Call.namespaceSensitive, World.failure, sprintf_reports, hreg, hget, hres]
    refine ⟨fun s => by cases s <;> decide, fun s err hs hf => ?_⟩
    cases s <;> simp_all [List.dropWhile]
    rfl
  · rw [main_forward_error w flagValue ns0 fd d e hreg hget hres hfwd]
    simp [preludeLog, stepsLog, serveLog, State.stepsRun, State.afterStep, Entry.step, Call.namespaceSensitive, World.failure, sprintf_reports, hreg, hget, hres, hfwd]
    refine ⟨fun s => by cases s <;> decide, fun s err hs hf => ?_⟩
    cases s <;> simp_all [List.dropWhile]
    rfl
  · rw [main_listen_error w flagValue ns0 fd d e hreg hget hres hfwd hlis]
    simp [preludeLog, stepsLog, serveLog, State.stepsRun, State.afterStep, Entry.step, Call.namespaceSensitive, World.failure, sprintf_reports, hreg, hget, hres, hfwd, hlis]
    refine ⟨fun s => by cases s <;> decide, fun s err hs hf => ?_⟩
    cases s <;> simp_all [List.dropWhile]
    rfl
  · rw [main_restore_error w flagValue ns0 fd d sock e hreg hget hres hfwd hlis hback]
    simp [preludeLog, stepsLog, serveLog, State.stepsRun, State.afterStep, Entry.step, Call.namespaceSensitive, World.failure, sprintf_reports, hreg, hget, hres, hfwd, hlis, hback]
    refine ⟨fun s => by cases s <;> decide, fun s err hs hf => ?_⟩
    cases s <;> simp_all [List.dropWhile]
    rfl
  · rw [main_serve_error w flagValue ns0 fd d sock e hreg hget hres hfwd hlis hback hsrv]
    simp [preludeLog, stepsLog, serveLog, State.stepsRun, State.afterStep, Entry.step, Call.namespaceSensitive, World.failure, sprintf_reports, hreg, hget, hres, hfwd, hlis, hback, hsrv]
    refine ⟨fun s => by cases s <;> decide, fun s err hs hf => ?_⟩
    cases s <;> simp_all [List.dropWhile]
  · rw [main_serve_nil w flagValue ns0 fd d sock hreg hget hres hfwd hlis hback hsrv]
    simp [preludeLog, stepsLog, serveLog, State.stepsRun, State.afterStep, Entry.step, Call.namespaceSensitive, World.failure, sprintf_reports, hreg, hget, hres, hfwd, hlis, hback, hsrv]
    refine ⟨fun s => by cases s <;> decide, fun s err hs hf => ?_⟩
    cases s <;> simp_all [List.dropWhile]

/-- Instance of C9: the bind fails; the only call after `net.Listen` is its
fatal report. -/
theorem no_retry_witness :
    Step.listen ∈ (main worldBindFails none 7).stepsRun ∧
    worldBindFails.failure ":7082" .listen =
      some "listen tcp :7082: bind: address already in use" ∧
    ((main worldBindFails none 7).afterStep .listen).map Entry.call =
      [.logFatal (Step.report .listen "listen tcp :7082: bind: address already in use")] ∧
    (main worldBindFails none 7).exit = some 1 :=
  ⟨by decide, rfl,
    (no_retry worldBindFails none 7).2.2 .listen
      "listen tcp :7082: bind: address already in use" (by decide) rfl⟩

/-- C10 (serving starts iff the whole bootstrap succeeded): `server.Serve` is
called if and only if registry setup and the five steps all succeeded; it is
called at most once, with the listener that `net.Listen("tcp", addr)` returned
for `addr` the value of the `-listen-address` flag, which is ":7082" when the
flag is not given; and no `Close` call precedes the `Serve` call. -/
theorem serve_iff_bootstrap_succeeded (w : World) (flagValue : Option String) (ns0 : Ns) :
    ((main w flagValue ns0).served ≠ [] ↔
      (w.setupPrometheusRegistry = .ok () ∧
        ∀ s ∈ Step.all, w.failure (listenAddress flagValue) s = none)) ∧
    (main w flagValue ns0).served.length ≤ 1 ∧
    (∀ p ∈ (main w flagValue ns0).served,
      w.netListen "tcp" (listenAddress flagValue) = .ok p.1.sock ∧
      p.1.network = "tcp" ∧ p.1.addr = listenAddress flagValue) ∧
    ((main w flagValue ns0).before Call.isServe).filter (fun e => e.call.isClose) = [] ∧
    listenAddress none = ":7082" ∧
    ∀ a, listenAddress (some a) = a := by
  have key : ((main w flagValue ns0).served ≠ [] ↔
      (w.setupPrometheusRegistry = .ok () ∧
        ∀ s ∈ Step.all, w.failure (listenAddress flagValue) s = none)) ∧
      (main w flagValue ns0).served.length ≤ 1 ∧
      (∀ p ∈ (main w flagValue ns0).served,
        w.netListen "tcp" (listenAddress flagValue) = .ok p.1.sock ∧
        p.1.network = "tcp" ∧ p.1.addr = listenAddress flagValue) ∧
      ((main w flagValue ns0).before Call.isServe).filter (fun e => e.call.isClose) = [] := by
    rcases main_cases w (listenAddress flagValue) with ⟨e, hreg⟩ | ⟨hreg, e, hget⟩ |
      ⟨hreg, fd, e, hget, hres⟩ | ⟨hreg, fd, d, e, hget, hres, hfwd⟩ |
      ⟨hreg, fd, d, e, hget, hres, hfwd, hlis⟩ |
      ⟨hreg, fd, d, sock, e, hget, hres, hfwd, hlis, hback⟩ |
      ⟨hreg, fd, d, sock, e, hget, hres, hfwd, hlis, hback, hsrv⟩ |
      ⟨hreg, fd, d, sock, hget, hres, hfwd, hlis, hback, hsrv⟩
    · rw [main_registry_error w flagValue ns0 e hreg]
      simp [preludeLog, stepsLog, serveLog, State.served, State.before, Call.isServe, Call.isClose, World.failure, Step.all, hreg]
    · rw [main_get_error w flagValue ns0 e hreg hget]
      simp [preludeLog, stepsLog, serveLog, State.served, State.before, Call.isServe, Call.isClose, World.failure, Step.all, hreg, hget]
    · rw [main_resolve_error w flagValue ns0 fd e hreg hget hres]
      simp [preludeLog, stepsLog, serveLog, State.served, State.before, Call.isServe, Call.isClose, World.failure, Step.all, hreg, hget, hres]
    · rw [main_forward_error w flagValue ns0 fd d e hreg hget hres hfwd]
      simp [preludeLog, stepsLog, serveLog, State.served, State.before, Call.isServe, Call.isClose, World.failure, Step.all, hreg, hget, hres, hfwd]
    · rw [main_listen_error w flagValue ns0 fd d e hreg hget hres hfwd hlis]
      simp [preludeLog, stepsLog, serveLog, State.served, State.before, Call.isServe, Call.isClose, World.failure, Step.all, hreg, hget, hres, hfwd, hlis]
    · rw [main_restore_error w flagValue ns0 fd d sock e hreg hget hres hfwd hlis hback]
      simp [preludeLog, stepsLog, serveLog, State.served, State.before, Call.isServe, Call.isClose, World.failure, Step.all, hreg, hget, hres, hfwd, hlis, hback]
    · rw [main_serve_error w flagValue ns0 fd d sock e hreg hget hres hfwd hlis hback hsrv]
      simp [preludeLog, stepsLog, serveLog, State.served, State.before, Call.isServe, Call.isClose, World.failure, Step.all, hreg, hget, hres, hfwd, hlis, hback, hsrv]
    · rw [main_serve_nil w flagValue ns0 fd d sock hreg hget hres hfwd hlis hback hsrv]
      simp [preludeLog, stepsLog, serveLog, State.served, State.before, Call.isServe, Call.isClose, World.failure, Step.all, hreg, hget, hres, hfwd, hlis, hback, hsrv]
  exact ⟨key.1, key.2.1, key.2.2.1, key.2.2.2, rfl, fun _ => rfl⟩

/-- Instance of C10: in the all-success run `Serve` receives the socket that
`net.Listen("tcp", ":7082")` returned. -/
theorem serve_iff_bootstrap_succeeded_witness :
    ((⟨5, "tcp", ":7082", 1⟩, 7) : Listener × Ns) ∈ (main worldOk none 7).served ∧
    worldOk.netListen "tcp" ":7082" = .ok 5 ∧
    (⟨5, "tcp", ":7082", 1⟩ : Listener).network = "tcp" ∧
    (⟨5, "tcp", ":7082", 1⟩ : Listener).addr = ":7082" :=
  ⟨by decide,
    (serve_iff_bootstrap_succeeded worldOk none 7).2.2.1 (⟨5, "tcp", ":7082", 1⟩, 7)
      (by decide)⟩

end CraMonitor
